import Mathlib

/-!
Shallow embedding of the HealthReporter component (lib/health-reporter.js)
of the node-newrelic agent, together with proofs about its construction
precondition checks, its status state machine, its periodic health-check
write, and its shutdown write.

External collaborators are modelled explicitly:
  * the structured logger becomes a list of emitted `LogEntry` values;
  * the monotonic clock `process.hrtime.bigint()` becomes a `Nat` argument
    supplied at each observation point;
  * `crypto.randomUUID()` becomes a `String` argument, constrained where a
    claim needs it by the canonical 8-4-4-4-12 lowercase-hex shape;
  * `fs.writeFile` becomes a produced `WriteAttempt` value recording the
    target path (`none` models a JS `undefined` path) and the content;
  * `path.join` is modelled for the shapes used here: an empty base
    directory yields the file name alone, otherwise the two segments are
    joined with a slash (Node's separator normalisation is not modelled);
  * `setInterval` / `clearInterval` become the `timerInterval` field of the
    construction result and the `timerActive` flag of the reporter.
-/

set_option autoImplicit false

namespace HR

/-- Log severities of the structured logger collaborator. -/
inductive LogLevel
  | debug
  | info
  | warn
  | error
deriving DecidableEq

/-- One emitted log line: a severity and a rendered message. -/
structure LogEntry where
  level : LogLevel
  msg : String
deriving DecidableEq

/-- The newline separator used by the YAML template. -/
def nl : String := "\n"

/-- The single-quote character used by the YAML template around the
status message. -/
def sq : String := String.singleton (Char.ofNat 39)

/-- One decimal digit character. -/
def natDigitChar (d : Nat) : Char := Char.ofNat (48 + d % 10)

/-- Fuel-indexed most-significant-first decimal digit list. -/
def natDigitsAux : Nat → Nat → List Char
  | 0, _ => []
  | fuel + 1, n =>
    if n < 10 then [natDigitChar n]
    else natDigitsAux fuel (n / 10) ++ [natDigitChar (n % 10)]

/-- Decimal rendering of a nonnegative integer, modelling JS template
interpolation of a Number holding an integral value. -/
def natStr (n : Nat) : String := String.mk (natDigitsAux (n + 1) n)

/-- JS template interpolation of a boolean. -/
def jsBoolStr (b : Bool) : String := if b then "true" else "false"

/-- JS template interpolation of a value that may be undefined. -/
def optStr : Option String → String
  | some s => s
  | none => "undefined"

/-- JS template interpolation of a numeric value that may be undefined. -/
def optNatStr : Option Nat → String
  | some n => natStr n
  | none => "undefined"

/-- A JS number as used in this component: either NaN (a failed parseInt)
or an integral value. -/
inductive JsNum
  | nan
  | val (i : Int)
deriving DecidableEq

/-- JS template interpolation of a `JsNum`. -/
def jsNumStr : JsNum → String
  | JsNum.nan => "NaN"
  | JsNum.val i => if i < 0 then "-" ++ natStr i.natAbs else natStr i.natAbs

/-- JS multiplication by 1000, absorbing NaN. -/
def jsMul1000 : JsNum → JsNum
  | JsNum.nan => JsNum.nan
  | JsNum.val i => JsNum.val (i * 1000)

/-- The common JS whitespace characters skipped by parseInt. -/
def isJsSpace (c : Char) : Bool :=
  c == ' ' || c == '\t' || c == '\n' || c == '\r' || c == '\x0b' || c == '\x0c'

/-- ASCII decimal digit test. -/
def isDigitChar (c : Char) : Bool := '0' ≤ c && c ≤ '9'

/-- Value of a most-significant-first digit list. -/
def digitsVal (l : List Char) : Nat :=
  l.foldl (fun acc c => acc * 10 + (c.toNat - 48)) 0

/-- Models JS parseInt(s, 10): skip leading whitespace, an optional sign,
then read leading decimal digits; the result is NaN when no digit is
found. -/
def jsParseInt10 (s : String) : JsNum :=
  let cs := s.data.dropWhile isJsSpace
  match cs with
  | '-' :: rest =>
    let ds := rest.takeWhile isDigitChar
    if ds = [] then JsNum.nan else JsNum.val (-(digitsVal ds : Int))
  | '+' :: rest =>
    let ds := rest.takeWhile isDigitChar
    if ds = [] then JsNum.nan else JsNum.val (digitsVal ds)
  | _ =>
    let ds := cs.takeWhile isDigitChar
    if ds = [] then JsNum.nan else JsNum.val (digitsVal ds)

/-- The VALID_CODES table: status code to human-readable message. -/
def VALID_CODES : List (String × String) :=
  [ ("NR-APM-000", "Healthy."),
    ("NR-APM-001", "Invalid license key."),
    ("NR-APM-002", "License key missing."),
    ("NR-APM-003", "Forced disconnect received from New Relic."),
    ("NR-APM-004", "HTTP error communicating with New Relic."),
    ("NR-APM-005", "Missing application name in agent configuration."),
    ("NR-APM-006", "The maximum number of configured app names is exceeded."),
    ("NR-APM-007", "HTTP proxy is misconfigured."),
    ("NR-APM-008", "Agent is disabled via configuration."),
    ("NR-APM-009", "Failed to connect to the New Relic data collector."),
    ("NR-APM-010", "Agent config could not be parsed."),
    ("NR-APM-099", "Agent has shutdown.") ]

def STATUS_HEALTHY : String := "NR-APM-000"

def STATUS_BACKEND_ERROR : String := "NR-APM-004"

def STATUS_AGENT_SHUTDOWN : String := "NR-APM-099"

/-- Models VALID_CODES.has. -/
def hasCode (c : String) : Bool := (VALID_CODES.lookup c).isSome

/-- The reporter's instance fields.  A field that the JS constructor may
leave unset is an `Option`; the private status field is initialised to the
healthy code by the class body. -/
structure HealthReporter where
  status : String := STATUS_HEALTHY
  timerActive : Bool := false
  destFile : Option String := none
  startTime : Option Nat := none
deriving DecidableEq

/-- The data assembled for one writeStatus call, before rendering:
the healthy flag, the code, the (possibly undefined) message, the
(possibly undefined) start time, and the freshly captured status time. -/
structure HealthRecord where
  healthy : Bool
  code : String
  msg : Option String
  startTime : Option Nat
  statusTime : Nat
deriving DecidableEq

/-- The five-line YAML template rendered by writeStatus: the five lines
joined with a newline, with no trailing newline. -/
def renderRecord (rec : HealthRecord) : String :=
  String.intercalate nl
    [ "healthy: " ++ jsBoolStr rec.healthy,
      "status: " ++ sq ++ optStr rec.msg ++ sq,
      "last_error: " ++ rec.code,
      "start_time_unix_nano: " ++ optNatStr rec.startTime,
      "status_time_unix_nano: " ++ natStr rec.statusTime ]

/-- One invocation of the fs.writeFile collaborator: the target path
(`none` models an undefined destination) and the rendered content. -/
structure WriteAttempt where
  file : Option String
  content : String
deriving DecidableEq

/-- The three environment inputs read by the constructor; `none` models an
unset variable. -/
structure CtorEnv where
  fleetId : Option String
  outDir : Option String
  checkInterval : Option String
deriving DecidableEq

/-- What construction produced: the instance, the logs emitted, and the
interval passed to setInterval (`none` when no timer was scheduled). -/
structure CtorResult where
  reporter : HealthReporter
  logs : List LogEntry
  timerInterval : Option JsNum
deriving DecidableEq

/-- JS truthiness of an environment variable value (undefined or a
string): undefined and the empty string are falsy. -/
def jsTruthy : Option String → Bool
  | none => false
  | some s => !(s == "")

/-- Models uuid.replaceAll applied to the hyphen: every hyphen removed. -/
def stripDashes (s : String) : String :=
  String.mk (s.data.filter (fun c => c != '-'))

/-- The generated health file name. -/
def healthFileName (uuid : String) : String :=
  "health-" ++ stripDashes uuid ++ ".yaml"

/-- Models path.join for the shapes used by this component: an empty base
yields the file name alone, otherwise the segments joined with a slash. -/
def pathJoin (a b : String) : String := if a = "" then b else a ++ "/" ++ b

def msgNoFleet : String := "new relic control not present, skipping health reporting"

def msgNoOutDir : String := "health check output directory not provided, skipping health reporting"

def msgNoInterval : String := "health check interval not available, using default 5 seconds"

def msgInitialized : String := "health reporter initialized"

/-- The constructor: the short-circuit checks on the fleet id and output
directory, the interval default, the start-time capture, the destination
path computation, and the timer scheduling. -/
def construct (env : CtorEnv) (uuid : String) (t0 : Nat) : CtorResult :=
  if jsTruthy env.fleetId = false then
    { reporter := {}, logs := [⟨LogLevel.info, msgNoFleet⟩], timerInterval := none }
  else if env.outDir = none then
    { reporter := {}, logs := [⟨LogLevel.error, msgNoOutDir⟩], timerInterval := none }
  else
    let d := env.outDir.getD ""
    let ci : JsNum :=
      match env.checkInterval with
      | none => JsNum.val 5000
      | some s => jsMul1000 (jsParseInt10 s)
    let ciLogs : List LogEntry :=
      match env.checkInterval with
      | none => [⟨LogLevel.debug, msgNoInterval⟩]
      | some _ => []
    let dest := pathJoin d (healthFileName uuid)
    { reporter :=
        { status := STATUS_HEALTHY, timerActive := true,
          destFile := some dest, startTime := some t0 },
      logs := ciLogs ++
        [⟨LogLevel.info,
          "new relic control is present, writing health on interval " ++
            jsNumStr ci ++ " milliseconds to " ++ dest⟩,
         ⟨LogLevel.info, msgInitialized⟩],
      timerInterval := some ci }

/-- setStatus: reject unknown codes with a warn log; refuse to replace a
non-healthy current status with the shutdown code, with an info log;
otherwise store the candidate. -/
def setStatus (r : HealthReporter) (status : String) : HealthReporter × List LogEntry :=
  if hasCode status = false then
    (r, [⟨LogLevel.warn, "invalid health reporter status provided: " ++ status⟩])
  else if status = STATUS_AGENT_SHUTDOWN ∧ r.status ≠ STATUS_HEALTHY then
    (r, [⟨LogLevel.info,
          "not setting shutdown health status due to current status code: " ++ r.status⟩])
  else
    ({ r with status := status }, [])

/-- The record assembled by the private healthCheck tick handler. -/
def healthCheckRecord (r : HealthReporter) (now : Nat) : HealthRecord :=
  { healthy := decide (r.status = STATUS_HEALTHY),
    code := r.status,
    msg := VALID_CODES.lookup r.status,
    startTime := r.startTime,
    statusTime := now }

/-- The tick handler: one write of the rendered current record to the
destination file. -/
def healthCheck (r : HealthReporter) (now : Nat) : WriteAttempt :=
  { file := r.destFile, content := renderRecord (healthCheckRecord r now) }

/-- The record assembled by stop: the healthy flag is computed first, and
only a healthy current status is substituted by the shutdown code. -/
def stopRecord (r : HealthReporter) (now : Nat) : HealthRecord :=
  let healthy := decide (r.status = STATUS_HEALTHY)
  let code := if r.status = STATUS_HEALTHY then STATUS_AGENT_SHUTDOWN else r.status
  { healthy := healthy, code := code, msg := VALID_CODES.lookup code,
    startTime := r.startTime, statusTime := now }

/-- stop: cancel the timer and unconditionally issue one final write of
the resolved record to the destination file. -/
def stop (r : HealthReporter) (now : Nat) : HealthReporter × WriteAttempt :=
  ({ r with timerActive := false },
   { file := r.destFile, content := renderRecord (stopRecord r now) })

/-- Fold a sequence of setStatus calls over a reporter, keeping states. -/
def applySets (r : HealthReporter) (l : List String) : HealthReporter :=
  l.foldl (fun acc s => (setStatus acc s).1) r

/-- Lowercase hexadecimal digit test. -/
def isHexLower (c : Char) : Bool := ('0' ≤ c && c ≤ '9') || ('a' ≤ c && c ≤ 'f')

/-- The canonical 8-4-4-4-12 lowercase-hex shape of a generated UUID
string. -/
def uuidShape (s : String) : Prop :=
  ∃ a b c d e : List Char,
    a.length = 8 ∧ b.length = 4 ∧ c.length = 4 ∧ d.length = 4 ∧ e.length = 12 ∧
    (a ++ b ++ c ++ d ++ e).all isHexLower = true ∧
    s.data = a ++ '-' :: (b ++ '-' :: (c ++ '-' :: (d ++ '-' :: e)))

def prefHealth : String := "health-"

def suffYaml : String := ".yaml"

/-- Full match of a file name against the pattern health-[0-9a-f]{32}.yaml. -/
def matchesHealthName (s : String) : Prop :=
  ∃ hex : List Char, hex.length = 32 ∧ hex.all isHexLower = true ∧
    s.data = prefHealth.data ++ hex ++ suffYaml.data

/-- No newline occurs in the string. -/
def noNL (s : String) : Bool := s.data.all (fun c => c != '\n')

/-- The five lines the specification requires of a tick's output for a
current status code c with table message m and the two captured
timestamps. -/
def tickLines (c m : String) (t0 tNow : Nat) : List String :=
  [ "healthy: " ++ (if c = STATUS_HEALTHY then "true" else "false"),
    "status: " ++ sq ++ m ++ sq,
    "last_error: " ++ c,
    "start_time_unix_nano: " ++ natStr t0,
    "status_time_unix_nano: " ++ natStr tNow ]

/-- The shutdown message of the table. -/
def shutdownMsg : String := "Agent has shutdown."

/-- A reporter in the initial healthy state. -/
def rHealthy : HealthReporter := {}

/-- A reporter whose current status is the backend-error code. -/
def rBackendError : HealthReporter := { status := STATUS_BACKEND_ERROR }

/-- A status string outside the table. -/
def sBogus : String := "NR-BOGUS"

/-- A placeholder uuid input. -/
def uuidSimple : String := "u"

/-- A concrete canonical uuid input. -/
def uuidW : String := "0123abcd-4567-89ab-cdef-0123456789ab"

def hexA : List Char := "0123abcd".data

def hexB : List Char := "4567".data

def hexC : List Char := "89ab".data

def hexD : List Char := "cdef".data

def hexE : List Char := "0123456789ab".data

/-- A concrete fleet identifier value. -/
def fleetW : String := "fleet-1"

/-- A concrete output directory value. -/
def dirW : String := "/tmp/health"

/-- A concrete reporting-interval value, in seconds. -/
def secondsW : String := "2"

/-- An environment with the fleet id unset: construction short-circuits. -/
def envDisabled : CtorEnv :=
  { fleetId := none, outDir := some dirW, checkInterval := none }

/-- An environment with an empty-string fleet id. -/
def envEmptyFleet : CtorEnv :=
  { fleetId := some "", outDir := some dirW, checkInterval := none }

/-- An environment with an empty-string output directory. -/
def envEmptyDir : CtorEnv :=
  { fleetId := some fleetW, outDir := some "", checkInterval := some secondsW }

/-- An environment on which construction completes, interval given. -/
def envW : CtorEnv :=
  { fleetId := some fleetW, outDir := some dirW, checkInterval := some secondsW }

/-- An environment on which construction completes, interval absent. -/
def envWNoInterval : CtorEnv :=
  { fleetId := some fleetW, outDir := some dirW, checkInterval := none }

/-- A concrete sequence of setStatus inputs. -/
def setsW : List String := [STATUS_BACKEND_ERROR]

/-! Helper lemmas. -/

theorem str_data_append (a b : String) : (a ++ b).data = a.data ++ b.data := by
  cases a
  cases b
  rfl

theorem noNL_append (a b : String) : noNL (a ++ b) = (noNL a && noNL b) := by
  simp [noNL, str_data_append, List.all_append]

theorem charOfDigit_ne_nl (k : Nat) (hk : k < 10) :
    (Char.ofNat (48 + k) != '\n') = true := by
  interval_cases k <;> decide

theorem natDigitChar_ne_nl (d : Nat) : (natDigitChar d != '\n') = true :=
  charOfDigit_ne_nl (d % 10) (Nat.mod_lt _ (by decide))

theorem natDigitsAux_noNL (fuel : Nat) :
    ∀ n : Nat, ∀ c ∈ natDigitsAux fuel n, (c != '\n') = true := by
  induction fuel with
  | zero =>
    intro n c hc
    simp [natDigitsAux] at hc
  | succ fuel ih =>
    intro n c hc
    by_cases h : n < 10
    · simp [natDigitsAux, h] at hc
      subst hc
      exact natDigitChar_ne_nl n
    · simp [natDigitsAux, h] at hc
      rcases hc with hc | hc
      · exact ih _ c hc
      · subst hc
        exact natDigitChar_ne_nl (n % 10)

theorem noNL_natStr (n : Nat) : noNL (natStr n) = true := by
  rw [noNL, List.all_eq_true]
  intro c hc
  exact natDigitsAux_noNL (n + 1) n c hc

theorem lookup_mem {l : List (String × String)} {k v : String}
    (h : l.lookup k = some v) : (k, v) ∈ l := by
  obtain ⟨l1, l2, rfl, -⟩ := List.lookup_eq_some_iff.mp h
  simp

theorem hasCode_lookup {c : String} (h : hasCode c = true) :
    ∃ m, VALID_CODES.lookup c = some m := by
  rw [hasCode] at h
  exact Option.isSome_iff_exists.mp h

theorem table_noNL : VALID_CODES.all (fun p => noNL p.1 && noNL p.2) = true := by
  decide

theorem code_msg_noNL {c m : String} (h : VALID_CODES.lookup c = some m) :
    noNL c = true ∧ noNL m = true := by
  have hm := lookup_mem h
  have hall := List.all_eq_true.mp table_noNL _ hm
  rw [Bool.and_eq_true] at hall
  exact hall

theorem hasCode_of_ne_false {s : String} (h : ¬ hasCode s = false) :
    hasCode s = true := by
  cases hb : hasCode s with
  | false => exact absurd hb h
  | true => rfl

theorem setStatus_frame (r : HealthReporter) (s : String) :
    (setStatus r s).1.destFile = r.destFile ∧
    (setStatus r s).1.startTime = r.startTime ∧
    (setStatus r s).1.timerActive = r.timerActive := by
  rw [setStatus]
  split
  · exact ⟨rfl, rfl, rfl⟩
  · split
    · exact ⟨rfl, rfl, rfl⟩
    · exact ⟨rfl, rfl, rfl⟩

theorem setStatus_hasCode (r : HealthReporter) (s : String)
    (h : hasCode r.status = true) : hasCode (setStatus r s).1.status = true := by
  rw [setStatus]
  split
  · exact h
  · split
    · exact h
    · next h1 h2 => exact hasCode_of_ne_false h1

theorem applySets_cons (r : HealthReporter) (s : String) (t : List String) :
    applySets r (s :: t) = applySets (setStatus r s).1 t := rfl

theorem applySets_frame (l : List String) (r : HealthReporter) :
    (applySets r l).destFile = r.destFile ∧
    (applySets r l).startTime = r.startTime ∧
    (applySets r l).timerActive = r.timerActive := by
  induction l generalizing r with
  | nil => exact ⟨rfl, rfl, rfl⟩
  | cons s t ih =>
    have hs := setStatus_frame r s
    have ht := ih (setStatus r s).1
    rw [applySets_cons]
    exact ⟨ht.1.trans hs.1, ht.2.1.trans hs.2.1, ht.2.2.trans hs.2.2⟩

theorem applySets_hasCode (l : List String) (r : HealthReporter)
    (h : hasCode r.status = true) : hasCode (applySets r l).status = true := by
  induction l generalizing r with
  | nil => exact h
  | cons s t ih =>
    rw [applySets_cons]
    exact ih (setStatus r s).1 (setStatus_hasCode r s h)

theorem construct_completed (e : CtorEnv) (uuid : String) (t0 : Nat)
    (hs : (construct e uuid t0).timerInterval ≠ none) :
    ∃ d, e.outDir = some d ∧
      (construct e uuid t0).reporter =
        { status := STATUS_HEALTHY, timerActive := true,
          destFile := some (pathJoin d (healthFileName uuid)),
          startTime := some t0 } := by
  by_cases hf : jsTruthy e.fleetId = false
  · simp [construct, hf] at hs
  · cases hd : e.outDir with
    | none => simp [construct, hf, hd] at hs
    | some d =>
      refine ⟨d, rfl, ?_⟩
      simp [construct, hf, hd]

theorem construct_status (e : CtorEnv) (uuid : String) (t0 : Nat) :
    (construct e uuid t0).reporter.status = STATUS_HEALTHY := by
  rw [construct]
  split
  · rfl
  · split
    · rfl
    · rfl

theorem hex_ne_dash (c : Char) (h : isHexLower c = true) : (c != '-') = true := by
  have hne : c ≠ '-' := by
    intro he
    subst he
    exact absurd h (by decide)
  simpa [bne_iff_ne] using hne

theorem filter_hex_id (l : List Char) (h : l.all isHexLower = true) :
    l.filter (fun c => c != '-') = l := by
  induction l with
  | nil => rfl
  | cons c t ih =>
    rw [List.all_cons, Bool.and_eq_true] at h
    simp [List.filter_cons, hex_ne_dash c h.1, ih h.2]

theorem stripDashes_shape {s : String} (h : uuidShape s) :
    ∃ hex : List Char, hex.length = 32 ∧ hex.all isHexLower = true ∧
      (stripDashes s).data = hex := by
  obtain ⟨a, b, c, d, e, ha, hb, hc, hd, he, hall, hdata⟩ := h
  refine ⟨a ++ b ++ c ++ d ++ e, ?_, hall, ?_⟩
  · simp [List.length_append, ha, hb, hc, hd, he]
  · show s.data.filter (fun ch => ch != '-') = _
    rw [hdata]
    have hdash : (('-' : Char) != '-') = false := by decide
    simp only [List.all_append, Bool.and_eq_true] at hall
    simp [List.filter_append, List.filter_cons, hdash,
      filter_hex_id a hall.1.1.1.1, filter_hex_id b hall.1.1.1.2,
      filter_hex_id c hall.1.1.2, filter_hex_id d hall.1.2,
      filter_hex_id e hall.2]

theorem healthFileName_matches {uuid : String} (h : uuidShape uuid) :
    matchesHealthName (healthFileName uuid) := by
  obtain ⟨hex, hlen, hall, hdata⟩ := stripDashes_shape h
  refine ⟨hex, hlen, hall, ?_⟩
  show (prefHealth ++ stripDashes uuid ++ suffYaml).data = _
  rw [str_data_append, str_data_append, hdata]

/-! Claim theorems. -/

/-- Claim C1, evaluated on the code at the failing input: when construction
short-circuits because the fleet identifier is absent, no timer was
scheduled and the cancellation in stop is a no-op on the inert state, yet
stop still assembles a shutdown record and issues its write with an
undefined destination path, because writeStatus is invoked
unconditionally; so the write side of stop is not a no-op. -/
theorem claim1_stop_after_short_circuit :
    (construct envDisabled uuidSimple 0).timerInterval = none ∧
    (construct envDisabled uuidSimple 0).reporter.destFile = none ∧
    (construct envDisabled uuidSimple 0).reporter.timerActive = false ∧
    (stop (construct envDisabled uuidSimple 0).reporter 5).1.timerActive = false ∧
    (stop (construct envDisabled uuidSimple 0).reporter 5).2.file = none ∧
    (stop (construct envDisabled uuidSimple 0).reporter 5).2.content =
      renderRecord (stopRecord (construct envDisabled uuidSimple 0).reporter 5) :=
  ⟨rfl, rfl, rfl, rfl, rfl, rfl⟩

/-- Claim C2: setStatus with the shutdown code transitions a healthy
current status to the shutdown code, and for any non-healthy current
status it leaves the status unchanged and emits exactly one info log
naming the preserved code. -/
theorem claim2_setStatus_shutdown (r : HealthReporter) :
    (r.status = STATUS_HEALTHY →
      setStatus r STATUS_AGENT_SHUTDOWN =
        ({ r with status := STATUS_AGENT_SHUTDOWN }, [])) ∧
    (r.status ≠ STATUS_HEALTHY →
      setStatus r STATUS_AGENT_SHUTDOWN =
        (r, [⟨LogLevel.info,
          "not setting shutdown health status due to current status code: "
            ++ r.status⟩])) := by
  have hv : hasCode STATUS_AGENT_SHUTDOWN = true := by decide
  constructor
  · intro h
    simp [setStatus, hv, h]
  · intro h
    simp [setStatus, hv, h]

/-- Witness for claim C2 at two concrete reporters. -/
theorem claim2_witness :
    setStatus rHealthy STATUS_AGENT_SHUTDOWN =
      ({ rHealthy with status := STATUS_AGENT_SHUTDOWN }, []) ∧
    setStatus rBackendError STATUS_AGENT_SHUTDOWN =
      (rBackendError, [⟨LogLevel.info,
        "not setting shutdown health status due to current status code: "
          ++ rBackendError.status⟩]) :=
  ⟨(claim2_setStatus_shutdown rHealthy).1 rfl,
   (claim2_setStatus_shutdown rBackendError).2 (by decide)⟩

/-- Claim C3: an unknown status code is rejected with exactly one warn log
naming the code and no state change (setStatus is a total function, so no
exception path exists); and table membership of the current status is an
invariant: it holds right after construction and is preserved by any
setStatus call, while stop leaves the status untouched. -/
theorem claim3_setStatus_invalid (r : HealthReporter) (s : String)
    (e : CtorEnv) (uuid : String) (t0 t1 : Nat) :
    (hasCode s = false →
      setStatus r s = (r, [⟨LogLevel.warn,
        "invalid health reporter status provided: " ++ s⟩])) ∧
    (hasCode r.status = true → hasCode (setStatus r s).1.status = true) ∧
    hasCode (construct e uuid t0).reporter.status = true ∧
    (stop r t1).1.status = r.status := by
  refine ⟨?_, setStatus_hasCode r s, ?_, rfl⟩
  · intro h
    rw [setStatus, if_pos h]
  · rw [construct_status]
    decide

/-- Witness for claim C3 at concrete inputs. -/
theorem claim3_witness :
    setStatus rBackendError sBogus = (rBackendError, [⟨LogLevel.warn,
      "invalid health reporter status provided: " ++ sBogus⟩]) ∧
    hasCode (setStatus rBackendError sBogus).1.status = true ∧
    hasCode (construct envDisabled uuidSimple 0).reporter.status = true ∧
    (stop rBackendError 0).1.status = rBackendError.status := by
  obtain ⟨h1, h2, h3, h4⟩ :=
    claim3_setStatus_invalid rBackendError sBogus envDisabled uuidSimple 0 0
  exact ⟨h1 (by decide), h2 (by decide), h3, h4⟩

/-- Claim C4: stop cancels the timer and issues one final write to the
destination file; from the healthy state the written record is healthy
with the shutdown code and the shutdown message, and from a non-healthy
state the record keeps the existing code and its unchanged table message
with healthy false; in both cases the start time is carried over and the
status time is the fresh clock reading. -/
theorem claim4_stop_final_write (r : HealthReporter) (t : Nat) :
    (stop r t).1.timerActive = false ∧
    (stop r t).2.file = r.destFile ∧
    (stop r t).2.content = renderRecord (stopRecord r t) ∧
    (r.status = STATUS_HEALTHY →
      stopRecord r t = { healthy := true, code := STATUS_AGENT_SHUTDOWN,
                         msg := some shutdownMsg, startTime := r.startTime,
                         statusTime := t }) ∧
    (r.status ≠ STATUS_HEALTHY →
      stopRecord r t = { healthy := false, code := r.status,
                         msg := VALID_CODES.lookup r.status,
                         startTime := r.startTime, statusTime := t }) := by
  have hl : VALID_CODES.lookup STATUS_AGENT_SHUTDOWN = some shutdownMsg := by decide
  refine ⟨rfl, rfl, rfl, ?_, ?_⟩
  · intro h
    simp [stopRecord, h, hl]
  · intro h
    simp [stopRecord, h]

/-- Witness for claim C4 at two concrete reporters. -/
theorem claim4_witness :
    (stop rHealthy 9).1.timerActive = false ∧
    stopRecord rHealthy 9 = { healthy := true, code := STATUS_AGENT_SHUTDOWN,
                              msg := some shutdownMsg,
                              startTime := rHealthy.startTime, statusTime := 9 } ∧
    stopRecord rBackendError 9 = { healthy := false,
                                   code := rBackendError.status,
                                   msg := VALID_CODES.lookup rBackendError.status,
                                   startTime := rBackendError.startTime,
                                   statusTime := 9 } :=
  ⟨(claim4_stop_final_write rHealthy 9).1,
   (claim4_stop_final_write rHealthy 9).2.2.2.1 rfl,
   (claim4_stop_final_write rBackendError 9).2.2.2.2 (by decide)⟩

/-- Claim C6: every table code other than the shutdown code is stored by
setStatus from any current state, with no log emitted. -/
theorem claim6_setStatus_valid (r : HealthReporter) (s : String)
    (h1 : hasCode s = true) (h2 : s ≠ STATUS_AGENT_SHUTDOWN) :
    setStatus r s = ({ r with status := s }, []) := by
  rw [setStatus, if_neg (by simp [h1]), if_neg (by simp [h2])]

/-- Witness for claim C6 at two concrete valid non-shutdown codes. -/
theorem claim6_witness :
    setStatus rHealthy STATUS_BACKEND_ERROR =
      ({ rHealthy with status := STATUS_BACKEND_ERROR }, []) ∧
    setStatus rBackendError STATUS_HEALTHY =
      ({ rBackendError with status := STATUS_HEALTHY }, []) :=
  ⟨claim6_setStatus_valid rHealthy STATUS_BACKEND_ERROR (by decide) (by decide),
   claim6_setStatus_valid rBackendError STATUS_HEALTHY (by decide) (by decide)⟩

/-- Claim C10: stop never mutates the current status; the shutdown-code
substitution applies only to the written record, so after stop the status
equals its value before the call, and stopping twice from the healthy
state writes the shutdown code both times. -/
theorem claim10_stop_preserves_status (r : HealthReporter) (t1 t2 : Nat) :
    (stop r t1).1.status = r.status ∧
    (r.status = STATUS_HEALTHY →
      (stopRecord r t1).code = STATUS_AGENT_SHUTDOWN ∧
      (stopRecord (stop r t1).1 t2).code = STATUS_AGENT_SHUTDOWN ∧
      (stop r t1).2.content = renderRecord (stopRecord r t1) ∧
      (stop (stop r t1).1 t2).2.content =
        renderRecord (stopRecord (stop r t1).1 t2)) := by
  refine ⟨rfl, fun h => ⟨?_, ?_, rfl, rfl⟩⟩
  · simp [stopRecord, h]
  · simp [stopRecord, stop, h]

/-- Witness for claim C10 at a concrete healthy reporter. -/
theorem claim10_witness :
    (stop rHealthy 1).1.status = rHealthy.status ∧
    (stopRecord rHealthy 1).code = STATUS_AGENT_SHUTDOWN ∧
    (stopRecord (stop rHealthy 1).1 2).code = STATUS_AGENT_SHUTDOWN := by
  obtain ⟨h1, h2⟩ := claim10_stop_preserves_status rHealthy 1 2
  obtain ⟨h3, h4, -, -⟩ := h2 rfl
  exact ⟨h1, h3, h4⟩

/-- Claim C7: once construction has passed the fleet-id and
output-directory checks, an absent reporting interval yields exactly one
debug log and an effective timer interval of 5000 milliseconds, while a
present interval string yields the string parsed as an integer multiplied
by 1000, with no debug log. -/
theorem claim7_interval (e : CtorEnv) (uuid : String) (t0 : Nat)
    (hf : jsTruthy e.fleetId = true) (hd : e.outDir ≠ none) :
    (e.checkInterval = none →
      (construct e uuid t0).logs.filter
          (fun en => decide (en.level = LogLevel.debug)) =
        [⟨LogLevel.debug, msgNoInterval⟩] ∧
      (construct e uuid t0).timerInterval = some (JsNum.val 5000)) ∧
    (∀ s, e.checkInterval = some s →
      (construct e uuid t0).logs.filter
          (fun en => decide (en.level = LogLevel.debug)) = [] ∧
      (construct e uuid t0).timerInterval =
        some (jsMul1000 (jsParseInt10 s))) := by
  cases hdv : e.outDir with
  | none => exact absurd hdv hd
  | some d =>
    constructor
    · intro hci
      constructor
      · simp [construct, hf, hdv, hci, List.filter]
      · simp [construct, hf, hdv, hci]
    · intro s hci
      constructor
      · simp [construct, hf, hdv, hci, List.filter]
      · simp [construct, hf, hdv, hci]

/-- Witness for claim C7 at two concrete environments. -/
theorem claim7_witness :
    (construct envWNoInterval uuidSimple 0).logs.filter
        (fun en => decide (en.level = LogLevel.debug)) =
      [⟨LogLevel.debug, msgNoInterval⟩] ∧
    (construct envWNoInterval uuidSimple 0).timerInterval =
      some (JsNum.val 5000) ∧
    (construct envW uuidSimple 0).timerInterval =
      some (jsMul1000 (jsParseInt10 secondsW)) := by
  obtain ⟨ha, -⟩ := claim7_interval envWNoInterval uuidSimple 0 (by decide) (by decide)
  obtain ⟨-, hb⟩ := claim7_interval envW uuidSimple 0 (by decide) (by decide)
  obtain ⟨ha1, ha2⟩ := ha rfl
  exact ⟨ha1, ha2, (hb secondsW rfl).2⟩

/-- Claim C8: for a single constructed instance, the start time is
captured once at construction and is carried unchanged into every record
the instance writes (ticks and stop, across any sequence of setStatus
calls), while the status time of each record is the clock reading freshly
taken at that write, hence non-decreasing across successive writes when
the clock is monotone. -/
theorem claim8_timestamps (e : CtorEnv) (uuid : String) (t0 : Nat)
    (l : List String) (t1 t2 : Nat)
    (hs : (construct e uuid t0).timerInterval ≠ none) (hm : t1 ≤ t2) :
    (construct e uuid t0).reporter.startTime = some t0 ∧
    (applySets (construct e uuid t0).reporter l).startTime = some t0 ∧
    (healthCheckRecord (applySets (construct e uuid t0).reporter l) t1).startTime
      = some t0 ∧
    (stopRecord (applySets (construct e uuid t0).reporter l) t2).startTime
      = some t0 ∧
    (stop (applySets (construct e uuid t0).reporter l) t2).1.startTime
      = some t0 ∧
    (healthCheckRecord (applySets (construct e uuid t0).reporter l) t1).statusTime
      = t1 ∧
    (stopRecord (applySets (construct e uuid t0).reporter l) t2).statusTime
      = t2 ∧
    (healthCheckRecord (applySets (construct e uuid t0).reporter l) t1).statusTime
      ≤ (stopRecord (applySets (construct e uuid t0).reporter l) t2).statusTime := by
  obtain ⟨d, hd, hrep⟩ := construct_completed e uuid t0 hs
  have hst : (construct e uuid t0).reporter.startTime = some t0 := by rw [hrep]
  have hap : (applySets (construct e uuid t0).reporter l).startTime = some t0 :=
    (applySets_frame l (construct e uuid t0).reporter).2.1.trans hst
  exact ⟨hst, hap, hap, hap, hap, rfl, rfl, hm⟩

/-- Witness for claim C8 at a concrete environment and clock readings. -/
theorem claim8_witness :
    (construct envW uuidSimple 3).reporter.startTime = some 3 ∧
    (applySets (construct envW uuidSimple 3).reporter setsW).startTime = some 3 ∧
    (healthCheckRecord (applySets (construct envW uuidSimple 3).reporter setsW) 4).startTime
      = some 3 ∧
    (stopRecord (applySets (construct envW uuidSimple 3).reporter setsW) 6).startTime
      = some 3 ∧
    (stop (applySets (construct envW uuidSimple 3).reporter setsW) 6).1.startTime
      = some 3 ∧
    (healthCheckRecord (applySets (construct envW uuidSimple 3).reporter setsW) 4).statusTime
      = 4 ∧
    (stopRecord (applySets (construct envW uuidSimple 3).reporter setsW) 6).statusTime
      = 6 ∧
    (healthCheckRecord (applySets (construct envW uuidSimple 3).reporter setsW) 4).statusTime
      ≤ (stopRecord (applySets (construct envW uuidSimple 3).reporter setsW) 6).statusTime :=
  claim8_timestamps envW uuidSimple 3 setsW 4 6 (by decide) (by decide)

/-- Claim C9: the two disabling checks treat the empty string differently:
a falsy fleet identifier (unset or the empty string) short-circuits
construction into the inert state, while an output directory equal to the
empty string passes its strict undefined-only check, so construction
proceeds and uses the empty string as the base directory, the destination
becoming the bare file name. -/
theorem claim9_empty_string_asymmetry (e : CtorEnv) (uuid : String) (t0 : Nat) :
    (jsTruthy e.fleetId = false →
      construct e uuid t0 =
        { reporter := {}, logs := [⟨LogLevel.info, msgNoFleet⟩],
          timerInterval := none }) ∧
    (e.fleetId = some "" → jsTruthy e.fleetId = false) ∧
    (jsTruthy e.fleetId = true → e.outDir = some "" →
      (construct e uuid t0).timerInterval ≠ none ∧
      (construct e uuid t0).reporter.destFile = some (healthFileName uuid)) := by
  refine ⟨?_, ?_, ?_⟩
  · intro h
    rw [construct, if_pos h]
  · intro h
    rw [h]
    rfl
  · intro hf hd
    have hpj : pathJoin "" (healthFileName uuid) = healthFileName uuid := by
      rw [pathJoin, if_pos rfl]
    cases hci : e.checkInterval with
    | none =>
      constructor
      · simp [construct, hf, hd, hci]
      · simp [construct, hf, hd, hci, hpj]
    | some s =>
      constructor
      · simp [construct, hf, hd, hci]
      · simp [construct, hf, hd, hci, hpj]

/-- Witness for claim C9 at two concrete environments. -/
theorem claim9_witness :
    construct envEmptyFleet uuidSimple 0 =
      { reporter := {}, logs := [⟨LogLevel.info, msgNoFleet⟩],
        timerInterval := none } ∧
    (construct envEmptyDir uuidSimple 0).timerInterval ≠ none ∧
    (construct envEmptyDir uuidSimple 0).reporter.destFile =
      some (healthFileName uuidSimple) := by
  obtain ⟨h1, h2, -⟩ := claim9_empty_string_asymmetry envEmptyFleet uuidSimple 0
  obtain ⟨-, -, h3⟩ := claim9_empty_string_asymmetry envEmptyDir uuidSimple 0
  obtain ⟨h4, h5⟩ := h3 (by decide) rfl
  exact ⟨h1 (h2 rfl), h4, h5⟩

/-- Claim C5: for a reporter whose construction completed (with a
canonically shaped uuid) and after any sequence of setStatus calls, every
tick writes to the immutable destination path, whose file name fully
matches health-[0-9a-f]{32}.yaml, and the written content is exactly the
five newline-joined lines (each line newline-free, so there is no trailing
newline) in the order healthy, status, last_error, start_time_unix_nano,
status_time_unix_nano, where last_error is the current status code, status
is the single-quoted table message for that code, and healthy is true
exactly when the current status is the healthy code. -/
theorem claim5_tick_format (e : CtorEnv) (uuid : String) (t0 : Nat)
    (l : List String) (tNow : Nat)
    (hu : uuidShape uuid) (hs : (construct e uuid t0).timerInterval ≠ none) :
    ∃ d m,
      e.outDir = some d ∧
      VALID_CODES.lookup (applySets (construct e uuid t0).reporter l).status
        = some m ∧
      (healthCheck (applySets (construct e uuid t0).reporter l) tNow).file =
        some (pathJoin d (healthFileName uuid)) ∧
      matchesHealthName (healthFileName uuid) ∧
      (healthCheck (applySets (construct e uuid t0).reporter l) tNow).content =
        String.intercalate nl
          (tickLines (applySets (construct e uuid t0).reporter l).status m t0 tNow) ∧
      (tickLines (applySets (construct e uuid t0).reporter l).status m t0 tNow).length
        = 5 ∧
      ∀ line ∈ tickLines (applySets (construct e uuid t0).reporter l).status m t0 tNow,
        noNL line = true := by
  obtain ⟨d, hd, hrep⟩ := construct_completed e uuid t0 hs
  have hframe := applySets_frame l (construct e uuid t0).reporter
  have hcode : hasCode (applySets (construct e uuid t0).reporter l).status = true :=
    applySets_hasCode l _ (by rw [construct_status]; decide)
  obtain ⟨m, hm⟩ := hasCode_lookup hcode
  have hstart : (applySets (construct e uuid t0).reporter l).startTime = some t0 := by
    rw [hframe.2.1, hrep]
  have hmsg := code_msg_noNL hm
  refine ⟨d, m, hd, hm, ?_, healthFileName_matches hu, ?_, rfl, ?_⟩
  · show (applySets (construct e uuid t0).reporter l).destFile = _
    rw [hframe.1, hrep]
  · show renderRecord (healthCheckRecord (applySets (construct e uuid t0).reporter l) tNow)
      = _
    by_cases hP : (applySets (construct e uuid t0).reporter l).status = STATUS_HEALTHY
    · rw [hP] at hm
      simp [renderRecord, healthCheckRecord, tickLines, hm, hstart, jsBoolStr,
        optStr, optNatStr, hP]
    · simp [renderRecord, healthCheckRecord, tickLines, hm, hstart, jsBoolStr,
        optStr, optNatStr, hP]
  · intro line hline
    rw [tickLines] at hline
    simp only [List.mem_cons, List.not_mem_nil, or_false] at hline
    rcases hline with h | h | h | h | h <;> subst h
    · by_cases hP : (applySets (construct e uuid t0).reporter l).status = STATUS_HEALTHY
      · rw [if_pos hP]
        decide
      · rw [if_neg hP]
        decide
    · simp [noNL_append, hmsg.2]
      decide
    · simp [noNL_append, hmsg.1]
      decide
    · simp [noNL_append, noNL_natStr]
      decide
    · simp [noNL_append, noNL_natStr]
      decide

/-- Witness for claim C5 at a concrete environment, uuid, setStatus
sequence, and clock readings. -/
theorem claim5_witness :
    ∃ d m,
      envW.outDir = some d ∧
      VALID_CODES.lookup (applySets (construct envW uuidW 3).reporter setsW).status
        = some m ∧
      (healthCheck (applySets (construct envW uuidW 3).reporter setsW) 7).file =
        some (pathJoin d (healthFileName uuidW)) ∧
      matchesHealthName (healthFileName uuidW) ∧
      (healthCheck (applySets (construct envW uuidW 3).reporter setsW) 7).content =
        String.intercalate nl
          (tickLines (applySets (construct envW uuidW 3).reporter setsW).status m 3 7) ∧
      (tickLines (applySets (construct envW uuidW 3).reporter setsW).status m 3 7).length
        = 5 ∧
      ∀ line ∈ tickLines (applySets (construct envW uuidW 3).reporter setsW).status m 3 7,
        noNL line = true :=
  claim5_tick_format envW uuidW 3 setsW 7
    ⟨hexA, hexB, hexC, hexD, hexE, by decide, by decide, by decide, by decide,
     by decide, by decide, by decide⟩
    (by decide)

end HR
